import Mathlib

/-!
Verification development for the janus-plugin-sfu repository.

The source files embedded here are src/lib.rs, src/messages.rs and
src/subscriptions.rs. The repository modules sessions.rs, switchboard.rs and
config.rs are not present in the source tree; where an operation from one of
those modules is needed, it is modelled from the specification (each such
definition carries a doc comment starting with "Modelled from the spec:").

Machine-level concerns (raw pointers, C strings, gateway callbacks) are
embedded as plain data: sessions are identified by natural numbers, SDP blobs
by strings, and gateway pushes by values in event lists returned from the
embedded operations.
-/

/-! ## JSON values

A small model of JSON, sufficient for the signalling messages of
src/messages.rs. Objects are ordered association lists of string keys. -/

inductive Json where
  | null : Json
  | bool (b : Bool) : Json
  | num (n : Int) : Json
  | str (s : String) : Json
  | arr (elems : List Json) : Json
  | obj (fields : List (String × Json)) : Json

/-- Field lookup on a JSON object: the first binding of the key, if the value
is an object at all. Non-objects have no fields. -/
def Json.getField : Json → String → Option Json
  | .obj fields, key => fields.lookup key
  | _, _ => none

/-- Decoding of a JSON value as a Rust `bool` (serde is strict: only JSON
booleans are accepted). -/
def decodeBool : Json → Option Bool
  | .bool b => some b
  | _ => none

/-- Decoding of a JSON value as a Rust `String`. -/
def decodeString : Json → Option String
  | .str s => some s
  | _ => none

/-- Decoding of a JSON value as a Rust `Option<String>`: `null` is `None`, a
string is `Some`, anything else is an error. -/
def decodeOptString : Json → Option (Option String)
  | .null => some none
  | .str s => some (some s)
  | _ => none

/-! ## Message schema (src/messages.rs)

`RoomId` and `UserId` are opaque strings chosen by the client. -/

abbrev RoomId := String

abbrev UserId := String

/-- The `Subscription` record of src/messages.rs: which traffic a client will
get pushed to them. -/
structure Subscription where
  notifications : Bool
  data : Bool
  media : Option UserId
  deriving DecidableEq, Repr

/-- The `Default` instance derived for `Subscription` in src/messages.rs:
`false`, `false`, `None`. -/
def Subscription.default : Subscription :=
  { notifications := false, data := false, media := none }

/-- Embeds the serde-derived `Deserialize` for `Subscription`
(src/messages.rs lines 107-118). The struct is marked `#[serde(default)]` and
is NOT marked `deny_unknown_fields`, so by the semantics of serde derive:
a missing field takes its value from `Default`, a present field must decode at
its declared type, and fields with unknown names are skipped. Duplicate keys
and the serde sequence form of structs are not exercised by any claim and are
not modelled: lookups take the first binding of each key. -/
def Subscription.deserialize (j : Json) : Option Subscription :=
  match j with
  | .obj fields => do
    let notifications ← match fields.lookup "notifications" with
      | none => some Subscription.default.notifications
      | some v => decodeBool v
    let data ← match fields.lookup "data" with
      | none => some Subscription.default.data
      | some v => decodeBool v
    let media ← match fields.lookup "media" with
      | none => some Subscription.default.media
      | some v => decodeOptString v
    pure { notifications := notifications, data := data, media := media }
  | _ => none

/-- The `MessageKind` enum of src/messages.rs: all non-JSEP signalling
messages receivable from a client. -/
inductive MessageKind where
  | join (room_id : RoomId) (user_id : UserId) (subscribe : Option Subscription)
  | subscribe (what : Subscription)
  | block (whom : UserId)
  | unblock (whom : UserId)
  deriving DecidableEq, Repr

/-- Embeds the serde-derived `Deserialize` for `MessageKind`
(src/messages.rs lines 81-104), an internally tagged enum
(`#[serde(rename_all = "lowercase", tag = "kind")]`). By serde semantics: the
`kind` field must be present and hold one of the four lowercase variant names,
required variant fields must be present and well-typed, a field of type
`Option<Subscription>` defaults to `None` when missing or `null`, and unknown
fields inside a variant are skipped. -/
def MessageKind.deserialize (j : Json) : Option MessageKind :=
  match j.getField "kind" with
  | some (Json.str kind) =>
    if kind = "join" then do
      let room_id ← (j.getField "room_id").bind decodeString
      let user_id ← (j.getField "user_id").bind decodeString
      let subscribe ← match j.getField "subscribe" with
        | none => some none
        | some Json.null => some none
        | some v => (Subscription.deserialize v).map some
      pure (MessageKind.join room_id user_id subscribe)
    else if kind = "subscribe" then do
      let what ← (j.getField "what").bind Subscription.deserialize
      pure (MessageKind.subscribe what)
    else if kind = "block" then do
      let whom ← (j.getField "whom").bind decodeString
      pure (MessageKind.block whom)
    else if kind = "unblock" then do
      let whom ← (j.getField "whom").bind decodeString
      pure (MessageKind.unblock whom)
    else none
  | _ => none

/-- The `JsepKind` enum of src/messages.rs: a JSEP SDP offer or answer. The
SDP payload is carried as an opaque string; parsing SDP text is done by the
external gateway library, not by this repository. -/
inductive JsepKind where
  | offer (sdp : String)
  | answer (sdp : String)
  deriving DecidableEq, Repr

/-- Embeds the serde-derived `Deserialize` for `JsepKind`
(src/messages.rs lines 70-78), internally tagged on `type` with lowercase
variant names `offer` and `answer`. -/
def JsepKind.deserialize (j : Json) : Option JsepKind :=
  match j.getField "type" with
  | some (Json.str t) =>
    if t = "offer" then ((j.getField "sdp").bind decodeString).map JsepKind.offer
    else if t = "answer" then ((j.getField "sdp").bind decodeString).map JsepKind.answer
    else none
  | _ => none

/-- The `OptionalField` enum of src/messages.rs: a JSON message field which
may or may not be present. -/
inductive OptionalField (T : Type) where
  | some (val : T)
  | none
  deriving DecidableEq, Repr

/-- Embeds the serde-derived `Deserialize` for `OptionalField<T>`
(src/messages.rs lines 37-43): `#[serde(untagged)]` with
`#[serde(deny_unknown_fields)]`. By serde semantics the variants are tried in
declaration order: first `Some(T)` using the deserializer of `T` (passed here
as `inner`), then the empty struct variant `None {}`, which because of
`deny_unknown_fields` accepts only the object with no fields at all. -/
def OptionalField.deserialize {T : Type} (inner : Json → Option T) (j : Json) :
    Option (OptionalField T) :=
  match inner j with
  | Option.some v => Option.some (OptionalField.some v)
  | Option.none =>
    match j with
    | Json.obj [] => Option.some OptionalField.none
    | _ => Option.none

/-- The decoding performed by `process_message` (src/lib.rs line 455) on the
message payload. -/
def decodeMessage (j : Json) : Option (OptionalField MessageKind) :=
  OptionalField.deserialize MessageKind.deserialize j

/-- The decoding performed by `process_jsep` (src/lib.rs line 520) on the JSEP
payload. -/
def decodeJsep (j : Json) : Option (OptionalField JsepKind) :=
  OptionalField.deserialize JsepKind.deserialize j

/-! ## Sessions and switchboard state

Sessions are identified by natural numbers standing for the gateway handle
pointers. The `SessionState` fields are those of the `initial_state` built in
`create_session` (src/lib.rs lines 246-252). -/

abbrev SessionId := Nat

/-- The `JoinState` stored on a session once it joins: room and user identity
(spec section 3; constructed in src/lib.rs line 376). -/
structure JoinState where
  room_id : RoomId
  user_id : UserId
  deriving DecidableEq, Repr

/-- The per-session state of src/lib.rs `create_session`: a destruction flag,
write-once `join_state` and `subscription`, a mutable optional cached
subscriber offer (an SDP string), and the FIR sequence counter. The counter is
an `AtomicIsize` in the source; it is embedded as its raw 64-bit two's
complement bits, a natural number below `2 ^ 64`, since `fetch_add` wraps on
overflow. -/
structure SessionState where
  destroyed : Bool
  join_state : Option JoinState
  subscriber_offer : Option String
  subscription : Option Subscription
  fir_seq : Nat
  deriving DecidableEq, Repr

/-- The initial state given to every fresh session (src/lib.rs lines 246-252). -/
def initialSessionState : SessionState :=
  { destroyed := false, join_state := none, subscriber_offer := none,
    subscription := none, fir_seq := 0 }

/-- The semantics of `AtomSetOnce::set_if_none` used for the write-once session
fields: set the value when absent, keep the old value otherwise. -/
def setIfNone {α : Type} (o : Option α) (v : α) : Option α :=
  match o with
  | none => some v
  | some x => some x

/-- Modelled from the spec: the Switchboard indices of section 4.3 of the
specification (the repository file switchboard.rs is absent from the source
tree). `sessions` is the master session list filled by `connect`; `occupants`
relates each room to its master handles; `publisher_to_subscribers` holds the
media forwarding edges as (publisher session, subscriber session) pairs, with
the inverse index derivable by swapping; `blocks` holds (blocker, blocked)
user pairs. -/
structure Switchboard where
  sessions : List SessionId
  occupants : List (RoomId × SessionId)
  publisher_to_subscribers : List (SessionId × SessionId)
  blocks : List (UserId × UserId)
  deriving DecidableEq, Repr

/-- The empty switchboard, `Switchboard::new()`. -/
def Switchboard.empty : Switchboard :=
  { sessions := [], occupants := [], publisher_to_subscribers := [], blocks := [] }

/-- Modelled from the spec: `occupants_of(r)`, the master handles in room `r`. -/
def Switchboard.occupants_of (sb : Switchboard) (r : RoomId) : List SessionId :=
  (sb.occupants.filter (fun p => p.1 == r)).map (fun p => p.2)

/-- Modelled from the spec: `join_room(s, r)` adds `s` to `occupants[r]`. -/
def Switchboard.join_room (sb : Switchboard) (s : SessionId) (r : RoomId) : Switchboard :=
  { sb with occupants := (r, s) :: sb.occupants }

/-- Modelled from the spec: `connect(s)` inserts `s` into the master session
list. -/
def Switchboard.connect (sb : Switchboard) (s : SessionId) : Switchboard :=
  { sb with sessions := s :: sb.sessions }

/-- Modelled from the spec: `subscribe_to_user(s, p)` adds the media edge
`p -> s` (the inverse index is the same list read backwards). -/
def Switchboard.subscribe_to_user (sb : Switchboard) (s : SessionId) (p : SessionId) : Switchboard :=
  { sb with publisher_to_subscribers := (p, s) :: sb.publisher_to_subscribers }

/-- Modelled from the spec: `establish_block(a, b)` inserts `(a, b)` into the
block relation. -/
def Switchboard.establish_block (sb : Switchboard) (a b : UserId) : Switchboard :=
  { sb with blocks := (a, b) :: sb.blocks }

/-- Modelled from the spec: `lift_block(a, b)` removes `(a, b)` from the block
relation. -/
def Switchboard.lift_block (sb : Switchboard) (a b : UserId) : Switchboard :=
  { sb with blocks := sb.blocks.filter (fun p => !(p.1 == a && p.2 == b)) }

/-- Modelled from the spec: `remove_session(s)` removes `s` from every index. -/
def Switchboard.remove_session (sb : Switchboard) (s : SessionId) : Switchboard :=
  { sessions := sb.sessions.filter (fun x => !(x == s)),
    occupants := sb.occupants.filter (fun p => !(p.2 == s)),
    publisher_to_subscribers :=
      sb.publisher_to_subscribers.filter (fun e => !(e.1 == s) && !(e.2 == s)),
    blocks := sb.blocks }

/-- Modelled from the spec: `subscribers_to(s)`, the raw publisher to
subscriber edge set for publisher `s`, used when pushing a new subscriber
offer on renegotiation. -/
def Switchboard.subscribers_to (sb : Switchboard) (p : SessionId) : List SessionId :=
  (sb.publisher_to_subscribers.filter (fun e => e.1 == p)).map (fun e => e.2)

/-- Modelled from the spec: `media_senders_to(s)`, the sessions `s` is
currently subscribed to (the inverse of the publisher edges). -/
def Switchboard.media_senders_to (sb : Switchboard) (s : SessionId) : List SessionId :=
  (sb.publisher_to_subscribers.filter (fun e => e.2 == s)).map (fun e => e.1)

/-- The global plugin state relevant to signalling: the session table (one
entry per created session), the switchboard, and the configured
`max_room_size` (config.rs is absent from the source tree; the spec says it is
a single positive integer setting). -/
structure World where
  sessions : List (SessionId × SessionState)
  switchboard : Switchboard
  max_room_size : Nat
  deriving DecidableEq, Repr

/-- Reading a session from the table. Absent sessions read as the initial
state; every operation of the plugin is invoked with an existing session. -/
def World.getSession (w : World) (sid : SessionId) : SessionState :=
  (w.sessions.lookup sid).getD initialSessionState

/-- Point update of one session in the table. -/
def World.updateSession (w : World) (sid : SessionId) (f : SessionState → SessionState) : World :=
  { w with sessions := w.sessions.map (fun p => if p.1 == sid then (p.1, f p.2) else p) }

/-- Modelled from the spec: `get_publisher(u)` returns the session for user
`u` whose `subscriber_offer` is set (any deterministic choice when several
qualify); returned here together with that offer, which the callers in
src/lib.rs read back with `unwrap()`. -/
def World.get_publisher (w : World) (u : UserId) : Option (SessionId × String) :=
  (w.sessions.find? (fun p =>
      (p.2.join_state.map JoinState.user_id == some u) && p.2.subscriber_offer.isSome)).bind
    (fun p => p.2.subscriber_offer.map (fun o => (p.1, o)))

/-- Modelled from the spec: `get_users(r)`, the user ids present in room `r`,
used to build the body of a join response. -/
def World.get_users (w : World) (r : RoomId) : List UserId :=
  (w.switchboard.occupants_of r).filterMap (fun sid => (w.getSession sid).join_state.map JoinState.user_id)

/-- The `MessageResponse` struct of src/lib.rs lines 80-92: an optional
response body and an optional JSEP. -/
structure MessageResponse where
  body : Option Json
  jsep : Option Json

/-- `MessageResponse::new(body, jsep)`. -/
def MessageResponse.mk2 (body jsep : Json) : MessageResponse :=
  { body := some body, jsep := some jsep }

/-- `MessageResponse::msg(body)`. -/
def MessageResponse.msg (body : Json) : MessageResponse :=
  { body := some body, jsep := none }

/-! ## Signalling handlers (src/lib.rs)

Each handler is embedded as a function from the world to a result paired with
the successor world. Gateway I/O performed along the way (join/leave/block
notifications pushed through `push_event`) does not affect the plugin state
and is verified separately through the standalone embeddings of
`notify_user` / `notify_except` / `send_offer` / `send_fir` below. -/

/-- Embeds `process_join` (src/lib.rs lines 352-397), step by step in source
order: compute the response body; reject a second join; reject a second
subscribe; for a subscription with `data` set (a master handle), reject when
the room already holds `max_room_size` occupants; then set `join_state`,
store the subscription, add master handles to the room, and for a media
subscription look up the publisher (failing when there is none) and register
the media edge, answering with the cached subscriber offer of the
publisher. -/
def process_join (w : World) (from_ : SessionId) (room_id : RoomId) (user_id : UserId)
    (subscribe : Option Subscription) : Except String MessageResponse × World :=
  let body := Json.obj [("users", Json.obj [(room_id, Json.arr ((w.get_users room_id).map Json.str))])]
  let s := w.getSession from_
  let already_joined := s.join_state.isSome
  let already_subscribed := s.subscription.isSome
  if already_joined then
    (Except.error "Handles may only join once!", w)
  else if already_subscribed && subscribe.isSome then
    (Except.error "Handles may only subscribe once!", w)
  else
    let is_master_handle := match subscribe with
      | some subscription => subscription.data
      | none => false
    let room_is_full := decide ((w.switchboard.occupants_of room_id).length ≥ w.max_room_size)
    if is_master_handle && room_is_full then
      (Except.error "Room is full.", w)
    else
      let w := w.updateSession from_ (fun st =>
        { st with join_state := setIfNone st.join_state ⟨room_id, user_id⟩ })
      match subscribe with
      | none => (Except.ok (MessageResponse.msg body), w)
      | some subscription =>
        let w := w.updateSession from_ (fun st =>
          { st with subscription := setIfNone st.subscription subscription })
        let w := if is_master_handle then
            { w with switchboard := w.switchboard.join_room from_ room_id }
          else w
        match subscription.media with
        | none => (Except.ok (MessageResponse.msg body), w)
        | some publisher_id =>
          match w.get_publisher publisher_id with
          | none => (Except.error "Can't subscribe to a nonexistent publisher.", w)
          | some (publisher, offer) =>
            (Except.ok (MessageResponse.mk2 body
                (Json.obj [("type", Json.str "offer"), ("sdp", Json.str offer)])),
             { w with switchboard := w.switchboard.subscribe_to_user from_ publisher })

/-- Embeds `process_subscribe` (src/lib.rs lines 434-451): `set_if_none` on
the subscription, rejecting when one was already present; on a media
subscription, look up the publisher (failing when there is none), register
the edge, and answer with the cached subscriber offer. -/
def process_subscribe (w : World) (from_ : SessionId) (what : Subscription) :
    Except String MessageResponse × World :=
  let s := w.getSession from_
  if s.subscription.isSome then
    (Except.error "Users may only subscribe once!", w)
  else
    let w := w.updateSession from_ (fun st =>
      { st with subscription := setIfNone st.subscription what })
    match what.media with
    | none => (Except.ok (MessageResponse.msg (Json.obj [])), w)
    | some publisher_id =>
      match w.get_publisher publisher_id with
      | none => (Except.error "Can't subscribe to a nonexistent publisher.", w)
      | some (publisher, offer) =>
        (Except.ok (MessageResponse.mk2 (Json.obj [])
            (Json.obj [("type", Json.str "offer"), ("sdp", Json.str offer)])),
         { w with switchboard := w.switchboard.subscribe_to_user from_ publisher })

/-- Embeds `process_block` (src/lib.rs lines 399-413): requires `join_state`,
notifies the target (gateway I/O) and inserts the block pair. -/
def process_block (w : World) (from_ : SessionId) (whom : UserId) :
    Except String MessageResponse × World :=
  match (w.getSession from_).join_state with
  | some joined =>
    (Except.ok (MessageResponse.msg (Json.obj [])),
     { w with switchboard := w.switchboard.establish_block joined.user_id whom })
  | none => (Except.error "Cannot block when not in a room.", w)

/-- Embeds `process_unblock` (src/lib.rs lines 415-432): requires
`join_state`, lifts the block pair, and when the unblocked user is currently
publishing emits one FIR to that publishing session (bumping its `fir_seq`). -/
def process_unblock (w : World) (from_ : SessionId) (whom : UserId) :
    Except String MessageResponse × World :=
  match (w.getSession from_).join_state with
  | some joined =>
    let w := { w with switchboard := w.switchboard.lift_block joined.user_id whom }
    let w := match w.get_publisher whom with
      | some (publisher, _) =>
        w.updateSession publisher (fun st => { st with fir_seq := (st.fir_seq + 1) % 2 ^ 64 })
      | none => w
    (Except.ok (MessageResponse.msg (Json.obj [])), w)
  | none => (Except.error "Cannot unblock when not in a room.", w)

/-- Events observable at the gateway boundary during `process_offer`: a JSEP
re-offer pushed to one subscriber, or the overwrite of the cached subscriber
offer. The order of the returned event list is the order in which these
effects happen in the source. -/
inductive OfferEvent where
  | pushOffer (subscriber : SessionId) (jsep : Json)
  | storeOffer (publisher : SessionId) (sdp : String)

/-- Embeds `process_offer` (src/lib.rs lines 470-512). The SDP answer and the
new subscriber offer are constructed by the external gateway SDP library
(`answer_sdp!` and `offer_sdp!`); they enter the embedding as the opaque
strings `answer` and `subscriber_offer`. The function pushes the new
subscriber offer to every current subscriber of the publisher and only then
stores it on the session, and replies with the answer. -/
def process_offer (w : World) (from_ : SessionId) (subscriber_offer : String)
    (answer : String) : (List OfferEvent × Json) × World :=
  let jsep := Json.obj [("type", Json.str "offer"), ("sdp", Json.str subscriber_offer)]
  let pushes := (w.switchboard.subscribers_to from_).map
    (fun s => OfferEvent.pushOffer s jsep)
  let w2 := w.updateSession from_ (fun st => { st with subscriber_offer := some subscriber_offer })
  ((pushes ++ [OfferEvent.storeOffer from_ subscriber_offer],
    Json.obj [("type", Json.str "answer"), ("sdp", Json.str answer)]), w2)

/-! ## Response framing (src/lib.rs `handle_message_async`) -/

/-- The result of `Weak::upgrade` on the originating session of a
`RawMessage`, combined with the session destruction flag read under its
mutex: either the session is gone, or it is live with the given `destroyed`
value. -/
inductive UpgradeResult where
  | gone
  | live (destroyed : Bool)
  deriving DecidableEq, Repr

/-- One response as pushed by `push_response` (src/lib.rs lines 533-538):
a body and an optional JSEP (`push_response` substitutes the empty object
when the JSEP is absent). -/
structure PushedResponse where
  body : Json
  jsep : Option Json

/-- The error response envelope built in `handle_message_async`:
`{success: false, error: {msg: text}}`. -/
def errorBody (msg : String) : Json :=
  Json.obj [("success", Json.bool false), ("error", Json.obj [("msg", Json.str msg)])]

/-- The success response envelope: `{success: true}` extended with
`response: body` when a body is present. -/
def successBody : Option Json → Json
  | none => Json.obj [("success", Json.bool true)]
  | some x => Json.obj [("success", Json.bool true), ("response", x)]

/-- Embeds `handle_message_async` (src/lib.rs lines 540-582), parameterized by
the outcome of `from.upgrade()` plus the destruction flag, and by the two
stage results `msg.map(process_message)` and `jsep.map(process_jsep)`. The
return value is the at most one response pushed to the originating session:
`none` when the session is gone or destroyed (the message is logged and
dropped), otherwise exactly the response selected by the source `match`, in
source arm order (a message-stage error wins over a JSEP-stage error). -/
def handle_message_async (up : UpgradeResult)
    (msg_result : Option (Except String MessageResponse))
    (jsep_result : Option (Except String Json)) : Option PushedResponse :=
  match up with
  | UpgradeResult.live false =>
    Option.some (match msg_result, jsep_result with
      | some (Except.error e), _ => { body := errorBody e, jsep := none }
      | _, some (Except.error e) => { body := errorBody e, jsep := none }
      | some (Except.ok mr), none => { body := successBody mr.body, jsep := mr.jsep }
      | none, some (Except.ok j) => { body := successBody none, jsep := some j }
      | some (Except.ok mr), some (Except.ok j) => { body := successBody mr.body, jsep := some j }
      | none, none => { body := successBody none, jsep := none })
  | _ => Option.none

/-! ## Notification fan-out (src/lib.rs `notify_user` / `notify_except`)

`send_notification` pushes the event to each listed session in order, so the
sessions selected by the filters below are exactly the sessions that receive
one notification each. -/

/-- Embeds the filter of `notify_user` (src/lib.rs lines 129-141): keep the
candidate sessions whose subscription and join state are both set, whose
subscription asks for notifications, and whose joined user id equals the
target user. -/
def notify_user (everyone : List SessionState) (target : UserId) : List SessionState :=
  everyone.filter (fun s =>
    match s.subscription, s.join_state with
    | some subscription, some joined =>
      subscription.notifications && joined.user_id == target
    | _, _ => false)

/-- Embeds the filter of `notify_except` (src/lib.rs lines 143-155): keep the
candidate sessions whose subscription and join state are both set, whose
subscription asks for notifications, and whose joined user id differs from
the acting user. -/
def notify_except (everyone : List SessionState) (myself : UserId) : List SessionState :=
  everyone.filter (fun s =>
    match s.subscription, s.join_state with
    | some subscription, some joined =>
      subscription.notifications && !(joined.user_id == myself)
    | _, _ => false)

/-! ## FIR emission (src/lib.rs `send_fir` / `setup_media`)

The per-session `fir_seq` counters are embedded as an association list from
session id to the raw bits of the 64-bit `AtomicIsize`, a natural number
below `2 ^ 64` (absent entries read as the initial value 0 set in
`create_session`). `send_fir` performs `fetch_add(1, Relaxed)` on the counter
of each listed publisher — which wraps around modulo `2 ^ 64` — and emits one
FIR carrying the pre-increment value cast `as i32`, which truncates to the
low 32 bits read as a signed integer. -/

abbrev FirCounters := List (SessionId × Nat)

/-- The value of the `as i32` cast applied to raw 64-bit counter bits: keep
the low 32 bits and interpret them in two's complement. -/
def seqAsI32 (n : Nat) : Int :=
  if n % 2 ^ 32 < 2 ^ 31 then ((n % 2 ^ 32 : Nat) : Int)
  else ((n % 2 ^ 32 : Nat) : Int) - 2 ^ 32

/-- Current counter bits of a session, 0 when never touched. -/
def getSeq (c : FirCounters) (sid : SessionId) : Nat :=
  (c.lookup sid).getD 0

/-- Set the counter of a session (insert when absent). -/
def setSeq : FirCounters → SessionId → Nat → FirCounters
  | [], sid, v => [(sid, v)]
  | (k, x) :: rest, sid, v =>
    if k == sid then (k, v) :: rest else (k, x) :: setSeq rest sid v

/-- Embeds `send_fir` (src/lib.rs lines 188-195): for each publisher in
order, `fetch_add(1)` its `fir_seq` (wrapping modulo `2 ^ 64`) and emit a FIR
carrying the value read, truncated `as i32`. Returns the emitted
(publisher, sequence) pairs in order together with the updated counters. -/
def send_fir (publishers : List SessionId) (c : FirCounters) :
    List (SessionId × Int) × FirCounters :=
  match publishers with
  | [] => ([], c)
  | p :: rest =>
    let seq := getSeq c p
    let c2 := setSeq c p ((seq + 1) % 2 ^ 64)
    let out := send_fir rest c2
    ((p, seqAsI32 seq) :: out.1, out.2)

/-- Embeds `setup_media` (src/lib.rs lines 299-304): when media becomes ready
on a session, send one FIR to every publisher the session is subscribed to. -/
def setup_media (sb : Switchboard) (s : SessionId) (c : FirCounters) :
    List (SessionId × Int) × FirCounters :=
  send_fir (sb.media_senders_to s) c

/-- A trace of successive `send_fir` invocations (for example successive
`setup_media` calls): the concatenated FIR emissions, threading the counters
through. -/
def runFirCalls (calls : List (List SessionId)) (c : FirCounters) :
    List (SessionId × Int) × FirCounters :=
  match calls with
  | [] => ([], c)
  | pubs :: rest =>
    let first := send_fir pubs c
    let out := runFirCalls rest first.2
    (first.1 ++ out.1, out.2)

/-! ## Traffic subscriptions (src/subscriptions.rs)

This module routes traffic of particular kinds to sessions. `ContentKind` is
a bitflags value over `u8` (AUDIO = 1, VIDEO = 2, DATA = 4); flag sets are
embedded as the underlying natural number of bits. A weak session reference
is embedded as `Option SessionId`: `none` when the referent was dropped, in
which case `upgrade` fails. -/

namespace Subscriptions

/-- The `ContentKind` bitflags: the underlying bits. -/
abbrev ContentKind := Nat

/-- `ContentKind::AUDIO`. -/
def AUDIO : ContentKind := 1

/-- `ContentKind::VIDEO`. -/
def VIDEO : ContentKind := 2

/-- `ContentKind::DATA`. -/
def DATA : ContentKind := 4

/-- `bitflags` `self.contains(other)`: all bits of `other` are set in
`self`. -/
def containsKind (self other : ContentKind) : Bool :=
  Nat.land self other == other

/-- The `Subscription` struct of src/subscriptions.rs lines 23-31: a weak
reference to the subscribing session and the kind or kinds of traffic
subscribed to. -/
structure Subscription where
  sess : Option SessionId
  kind : ContentKind
  deriving DecidableEq, Repr

/-- The `SubscriptionMap` of src/subscriptions.rs line 43: publishers to
subscription lists. -/
abbrev SubscriptionMap := List (UserId × List Subscription)

/-- Embeds `subscribers_to` (src/subscriptions.rs lines 60-63): all
subscriptions stored under the publisher (none when the publisher has no
entry) whose kind contains the requested kind. -/
def subscribers_to (subscriptions : SubscriptionMap) (publisher : UserId)
    (kind : ContentKind) : List Subscription :=
  ((subscriptions.lookup publisher).getD []).filter (fun s => containsKind s.kind kind)

/-- Embeds `for_each_subscriber` (src/subscriptions.rs lines 65-71): invoke
`send` on each subscriber session of the publisher for the kind whose weak
reference still upgrades. Returns the list of sessions `send` is invoked on,
in invocation order. -/
def for_each_subscriber (subscriptions : SubscriptionMap) (publisher : UserId)
    (kind : ContentKind) : List SessionId :=
  (subscribers_to subscriptions publisher kind).filterMap (fun s => s.sess)

end Subscriptions

/-! ## The signalling transition system

The operations that mutate the plugin state, drawn from the lifecycle
callbacks and signalling handlers of src/lib.rs, collected into one step
function for reachability arguments. Messages whose processing only performs
gateway I/O do not appear. -/

/-- One state-mutating operation of the plugin. -/
inductive Op where
  | connect (sid : SessionId)
  | join (sid : SessionId) (room_id : RoomId) (user_id : UserId) (subscribe : Option Subscription)
  | subscribeOp (sid : SessionId) (what : Subscription)
  | block (sid : SessionId) (whom : UserId)
  | unblock (sid : SessionId) (whom : UserId)
  | offer (sid : SessionId) (subscriber_offer : String) (answer : String)
  | destroy (sid : SessionId)

/-- Embeds `create_session` (src/lib.rs lines 245-264): insert a fresh
session with the initial state and `connect` it on the switchboard. -/
def create_session (w : World) (sid : SessionId) : World :=
  { w with sessions := (sid, initialSessionState) :: w.sessions,
           switchboard := w.switchboard.connect sid }

/-- Embeds `destroy_session` (src/lib.rs lines 266-292): remove the session
from every switchboard index (leave notifications are gateway I/O), then set
its destruction flag. -/
def destroy_session (w : World) (sid : SessionId) : World :=
  let w := { w with switchboard := w.switchboard.remove_session sid }
  w.updateSession sid (fun st => { st with destroyed := true })

/-- The state effect of one operation. -/
def applyOp (w : World) (op : Op) : World :=
  match op with
  | Op.connect sid => create_session w sid
  | Op.join sid room_id user_id subscribe => (process_join w sid room_id user_id subscribe).2
  | Op.subscribeOp sid what => (process_subscribe w sid what).2
  | Op.block sid whom => (process_block w sid whom).2
  | Op.unblock sid whom => (process_unblock w sid whom).2
  | Op.offer sid so ans => (process_offer w sid so ans).2
  | Op.destroy sid => destroy_session w sid

/-- The world at plugin start: no sessions, empty switchboard, configured
room capacity `n`. -/
def initWorld (n : Nat) : World :=
  { sessions := [], switchboard := Switchboard.empty, max_room_size := n }

/-- The world reached after a list of operations from plugin start. -/
def runOps (n : Nat) (ops : List Op) : World :=
  ops.foldl applyOp (initWorld n)

/-! ## General lemmas -/

theorem lookup_map_update {α β : Type} [BEq α] [LawfulBEq α] (l : List (α × β)) (k : α)
    (f : β → β) :
    (l.map (fun p => if p.1 == k then (p.1, f p.2) else p)).lookup k = (l.lookup k).map f := by
  induction l with
  | nil => rfl
  | cons hd t ih =>
    rcases hd with ⟨a, b⟩
    by_cases hk : a = k
    · subst hk
      rw [List.map_cons, if_pos (by simp : (((a, b).1 == a) = true))]
      simp [List.lookup]
    · have h1 : (a == k) = false := beq_eq_false_iff_ne.mpr hk
      have h2 : (k == a) = false := beq_eq_false_iff_ne.mpr (Ne.symm hk)
      rw [List.map_cons, if_neg (by simp [h1] : ¬ (((a, b).1 == k) = true))]
      simp [List.lookup, h2, ih]

theorem World.lookup_updateSession (w : World) (sid : SessionId) (f : SessionState → SessionState) :
    (w.updateSession sid f).sessions.lookup sid = (w.sessions.lookup sid).map f := by
  unfold World.updateSession
  exact lookup_map_update w.sessions sid f

theorem World.getSession_updateSession (w : World) (sid : SessionId)
    (f : SessionState → SessionState) (hs : (w.sessions.lookup sid).isSome = true) :
    (w.updateSession sid f).getSession sid = f (w.getSession sid) := by
  unfold World.getSession
  rw [World.lookup_updateSession]
  cases h : w.sessions.lookup sid with
  | none => rw [h] at hs; simp at hs
  | some v => simp

theorem World.updateSession_isSome (w : World) (sid : SessionId)
    (f : SessionState → SessionState) (hs : (w.sessions.lookup sid).isSome = true) :
    ((w.updateSession sid f).sessions.lookup sid).isSome = true := by
  rw [World.lookup_updateSession]
  cases h : w.sessions.lookup sid with
  | none => rw [h] at hs; simp at hs
  | some v => simp

/-! ## Claims -/

/-- C2 counterexample: a subscribe message whose nested subscription record
contains the unknown field `bogus` decodes successfully (the field is
ignored), contradicting the claim that such a message is rejected. -/
theorem claim_C2_counterexample :
    decodeMessage (Json.obj [("kind", Json.str "subscribe"),
        ("what", Json.obj [("notifications", Json.bool true), ("bogus", Json.bool true)])]) =
      Option.some (OptionalField.some (MessageKind.subscribe
        { notifications := true, data := false, media := Option.none })) := rfl

theorem lookup_append_middle {beta : Type} (pre post : List (String × beta))
    (key k : String) (v : beta) (h : k ≠ key) :
    (pre ++ (key, v) :: post).lookup k = (pre ++ post).lookup k := by
  induction pre with
  | nil => simp [List.lookup, beq_eq_false_iff_ne.mpr h]
  | cons hd t ih =>
    rcases hd with ⟨a, b⟩
    cases hb : (k == a) with
    | true => simp [List.lookup, hb]
    | false => simp [List.lookup, hb, ih]

/-- C2 (amended): a field of a nested subscription record whose name is not
`notifications`, `data` or `media` is ignored by decoding, at whatever
position in the record it appears: the record decodes exactly as it would
without that field (in particular decoding does not fail because of it). -/
theorem claim_C2 (key : String) (v : Json) (pre post : List (String × Json))
    (h1 : key ≠ "notifications") (h2 : key ≠ "data") (h3 : key ≠ "media") :
    Subscription.deserialize (Json.obj (pre ++ (key, v) :: post)) =
      Subscription.deserialize (Json.obj (pre ++ post)) := by
  have e1 := lookup_append_middle pre post key "notifications" v (Ne.symm h1)
  have e2 := lookup_append_middle pre post key "data" v (Ne.symm h2)
  have e3 := lookup_append_middle pre post key "media" v (Ne.symm h3)
  simp only [Subscription.deserialize, e1, e2, e3]

/-- C2 witness: the amended statement applied to a `bogus` field in the
middle of the record. -/
theorem claim_C2_witness :
    Subscription.deserialize
        (Json.obj [("notifications", Json.bool true), ("bogus", Json.bool true),
                   ("data", Json.bool false)]) =
      Subscription.deserialize
        (Json.obj [("notifications", Json.bool true), ("data", Json.bool false)]) :=
  claim_C2 "bogus" (Json.bool true) [("notifications", Json.bool true)]
    [("data", Json.bool false)] (by decide) (by decide) (by decide)

/-- C3 counterexample: the object `{"foo": 1}` lacks the discriminator field
yet fails to decode (for both the message and the JSEP payload), contradicting
the claim that every object lacking the discriminator decodes as the none
variant. -/
theorem claim_C3_counterexample :
    decodeMessage (Json.obj [("foo", Json.num 1)]) = Option.none ∧
    decodeJsep (Json.obj [("foo", Json.num 1)]) = Option.none :=
  ⟨rfl, rfl⟩

/-- C3 (amended): the empty object decodes as the none variant of
`OptionalField` for both payload types, and an object whose discriminator
(`kind` or `type`) holds an unknown value fails to decode; however a
non-empty object lacking the discriminator also fails to decode rather than
parsing as none (only the empty object takes the none variant). -/
theorem claim_C3 :
    (decodeMessage (Json.obj []) = Option.some OptionalField.none ∧
     decodeJsep (Json.obj []) = Option.some OptionalField.none) ∧
    (∀ (fields : List (String × Json)) (v : String),
      fields.lookup "kind" = some (Json.str v) →
      v ≠ "join" → v ≠ "subscribe" → v ≠ "block" → v ≠ "unblock" →
      decodeMessage (Json.obj fields) = Option.none) ∧
    (∀ (fields : List (String × Json)) (v : String),
      fields.lookup "type" = some (Json.str v) →
      v ≠ "offer" → v ≠ "answer" →
      decodeJsep (Json.obj fields) = Option.none) ∧
    (∀ fields : List (String × Json), fields ≠ [] →
      fields.lookup "kind" = none →
      decodeMessage (Json.obj fields) = Option.none) ∧
    (∀ fields : List (String × Json), fields ≠ [] →
      fields.lookup "type" = none →
      decodeJsep (Json.obj fields) = Option.none) := by
  refine ⟨⟨rfl, rfl⟩, ?_, ?_, ?_, ?_⟩
  · intro fields v hlk h1 h2 h3 h4
    cases fields with
    | nil => simp [List.lookup] at hlk
    | cons f rest =>
      simp [decodeMessage, OptionalField.deserialize, MessageKind.deserialize,
        Json.getField, hlk, h1, h2, h3, h4]
  · intro fields v hlk h1 h2
    cases fields with
    | nil => simp [List.lookup] at hlk
    | cons f rest =>
      simp [decodeJsep, OptionalField.deserialize, JsepKind.deserialize,
        Json.getField, hlk, h1, h2]
  · intro fields hne hlk
    cases fields with
    | nil => exact absurd rfl hne
    | cons f rest =>
      simp [decodeMessage, OptionalField.deserialize, MessageKind.deserialize,
        Json.getField, hlk]
  · intro fields hne hlk
    cases fields with
    | nil => exact absurd rfl hne
    | cons f rest =>
      simp [decodeJsep, OptionalField.deserialize, JsepKind.deserialize,
        Json.getField, hlk]

/-- C3 witness: the amended statement applied to unknown discriminators and
to a non-empty object without a discriminator. -/
theorem claim_C3_witness :
    decodeMessage (Json.obj [("kind", Json.str "fiddle")]) = Option.none ∧
    decodeJsep (Json.obj [("type", Json.str "fiddle")]) = Option.none ∧
    decodeMessage (Json.obj [("bar", Json.null)]) = Option.none :=
  ⟨claim_C3.2.1 [("kind", Json.str "fiddle")] "fiddle" rfl
      (by decide) (by decide) (by decide) (by decide),
   claim_C3.2.2.1 [("type", Json.str "fiddle")] "fiddle" rfl (by decide) (by decide),
   claim_C3.2.2.2.1 [("bar", Json.null)] (by simp) rfl⟩

/-- C4: a join on a session whose `join_state` is already set fails with the
join-once error and returns the world unchanged: no session field and no
switchboard index is modified. -/
theorem claim_C4 (w : World) (sid : SessionId) (r : RoomId) (u : UserId)
    (subscribe : Option Subscription) (j : JoinState)
    (h : (w.getSession sid).join_state = some j) :
    process_join w sid r u subscribe = (Except.error "Handles may only join once!", w) := by
  simp [process_join, h]

/-- C4 witness: a session already joined to room `r` as user `u` cannot join
room `r2`. -/
theorem claim_C4_witness :
    process_join
        { sessions := [(0, { initialSessionState with join_state := some ⟨"r", "u"⟩ })],
          switchboard := Switchboard.empty, max_room_size := 4 }
        0 "r2" "u2" Option.none =
      (Except.error "Handles may only join once!",
       { sessions := [(0, { initialSessionState with join_state := some ⟨"r", "u"⟩ })],
         switchboard := Switchboard.empty, max_room_size := 4 }) :=
  claim_C4 _ 0 "r2" "u2" Option.none ⟨"r", "u"⟩ rfl

/-- C1 counterexample: a fresh session joins with a media subscription naming
user `ghost`, for whom no publisher exists. The join reports the
nonexistent-publisher error, yet afterwards the session's `join_state` and
`subscription` are both set, contradicting the claim that they remain unset
and that no state changes. -/
theorem claim_C1_counterexample :
    (process_join
        { sessions := [(0, initialSessionState)], switchboard := Switchboard.empty,
          max_room_size := 4 }
        0 "alpha" "u1"
        (Option.some { notifications := false, data := false, media := Option.some "ghost" })).1 =
      Except.error "Can't subscribe to a nonexistent publisher." ∧
    (((process_join
        { sessions := [(0, initialSessionState)], switchboard := Switchboard.empty,
          max_room_size := 4 }
        0 "alpha" "u1"
        (Option.some { notifications := false, data := false, media := Option.some "ghost" })).2.getSession
        0).join_state =
      Option.some ⟨"alpha", "u1"⟩) ∧
    (((process_join
        { sessions := [(0, initialSessionState)], switchboard := Switchboard.empty,
          max_room_size := 4 }
        0 "alpha" "u1"
        (Option.some { notifications := false, data := false, media := Option.some "ghost" })).2.getSession
        0).subscription =
      Option.some { notifications := false, data := false, media := Option.some "ghost" }) :=
  ⟨rfl, rfl, rfl⟩

/-- C1 (amended): a join (or subscribe) with a media subscription naming a
user for whom no publisher exists reports an error and leaves the
publisher-to-subscriber index unmodified, but it does NOT leave the rest of
the state unchanged: the failing join has already set the session's
`join_state` and `subscription` (and, for a master join, already added the
session to the room occupants), and the failing subscribe has already stored
the subscription. -/
theorem claim_C1 :
    (∀ (w : World) (sid : SessionId) (r : RoomId) (u : UserId) (s : Subscription) (p : UserId),
      (w.sessions.lookup sid).isSome = true →
      (w.getSession sid).join_state = Option.none →
      (w.getSession sid).subscription = Option.none →
      s.media = Option.some p →
      (s.data && decide ((w.switchboard.occupants_of r).length ≥ w.max_room_size)) = false →
      ∀ w3 : World,
        w3 = (let w1 := w.updateSession sid (fun st =>
                { st with join_state := setIfNone st.join_state ⟨r, u⟩ });
              let w2 := w1.updateSession sid (fun st =>
                { st with subscription := setIfNone st.subscription s });
              if s.data then { w2 with switchboard := w2.switchboard.join_room sid r } else w2) →
        w3.get_publisher p = Option.none →
        process_join w sid r u (Option.some s) =
          (Except.error "Can't subscribe to a nonexistent publisher.", w3) ∧
        (w3.getSession sid).join_state = Option.some ⟨r, u⟩ ∧
        (w3.getSession sid).subscription = Option.some s ∧
        w3.switchboard.publisher_to_subscribers = w.switchboard.publisher_to_subscribers ∧
        (s.data = true → sid ∈ w3.switchboard.occupants_of r)) ∧
    (∀ (w : World) (sid : SessionId) (what : Subscription) (p : UserId),
      (w.sessions.lookup sid).isSome = true →
      (w.getSession sid).subscription = Option.none →
      what.media = Option.some p →
      ∀ w1 : World,
        w1 = w.updateSession sid (fun st =>
          { st with subscription := setIfNone st.subscription what }) →
        w1.get_publisher p = Option.none →
        process_subscribe w sid what =
          (Except.error "Can't subscribe to a nonexistent publisher.", w1) ∧
        (w1.getSession sid).subscription = Option.some what ∧
        w1.switchboard = w.switchboard) := by
  constructor
  · intro w sid r u s p hs hj hsubn hm hfull w3 hw3 hpub
    have hw1s : ((w.updateSession sid (fun st =>
        { st with join_state := setIfNone st.join_state ⟨r, u⟩ })).sessions.lookup sid).isSome = true :=
      World.updateSession_isSome _ _ _ hs
    have hget2 : ((w.updateSession sid (fun st =>
          { st with join_state := setIfNone st.join_state ⟨r, u⟩ })).updateSession sid
          (fun st => { st with subscription := setIfNone st.subscription s })).getSession sid =
        { w.getSession sid with
          join_state := setIfNone (w.getSession sid).join_state ⟨r, u⟩,
          subscription := setIfNone (w.getSession sid).subscription s } := by
      rw [World.getSession_updateSession _ _ _ hw1s, World.getSession_updateSession _ _ _ hs]
    have hget3 : w3.getSession sid =
        { w.getSession sid with
          join_state := setIfNone (w.getSession sid).join_state ⟨r, u⟩,
          subscription := setIfNone (w.getSession sid).subscription s } := by
      rw [hw3]
      cases hd : s.data
      · simpa [hd] using hget2
      · simpa [hd, World.getSession] using congrArg
          (fun st => st) hget2
    refine ⟨?_, ?_, ?_, ?_, ?_⟩
    · subst hw3
      simp only [process_join, hj, hsubn, hm, Option.isSome_none, Option.isSome_some,
        Bool.false_and, Bool.and_false, if_false, Bool.false_eq_true, ite_false, hfull]
      simp [hpub]
    · rw [hget3]
      simp [setIfNone, hj]
    · rw [hget3]
      simp [setIfNone, hsubn]
    · subst hw3
      cases hd : s.data <;> simp [hd, Switchboard.join_room, World.updateSession]
    · intro hd
      subst hw3
      simp [hd, Switchboard.join_room, Switchboard.occupants_of]
  · intro w sid what p hs hsubn hm w1 hw1 hpub
    have hget1 : (w.updateSession sid (fun st =>
          { st with subscription := setIfNone st.subscription what })).getSession sid =
        { w.getSession sid with subscription := setIfNone (w.getSession sid).subscription what } :=
      World.getSession_updateSession _ _ _ hs
    refine ⟨?_, ?_, ?_⟩
    · subst hw1
      simp only [process_subscribe, hsubn, hm, Option.isSome_none, Bool.false_eq_true, if_false]
      simp [hpub]
    · rw [hw1, hget1]
      simp [setIfNone, hsubn]
    · rw [hw1]
      simp [World.updateSession]

/-- C1 witness: the amended statement applied to a concrete master join and a
concrete subscribe, both naming the absent publisher `bob`. -/
theorem claim_C1_witness :
    (((process_join
        { sessions := [(5, initialSessionState)], switchboard := Switchboard.empty,
          max_room_size := 2 }
        5 "room" "alice"
        (Option.some { notifications := true, data := true, media := Option.some "bob" })).2.getSession
        5).join_state = Option.some ⟨"room", "alice"⟩) ∧
    (((process_subscribe
        { sessions := [(7, initialSessionState)], switchboard := Switchboard.empty,
          max_room_size := 2 }
        7 { notifications := false, data := false, media := Option.some "bob" }).2.getSession
        7).subscription =
      Option.some { notifications := false, data := false, media := Option.some "bob" }) := by
  have h1 := claim_C1.1
    { sessions := [(5, initialSessionState)], switchboard := Switchboard.empty, max_room_size := 2 }
    5 "room" "alice" { notifications := true, data := true, media := Option.some "bob" } "bob"
    rfl rfl rfl rfl rfl _ rfl rfl
  have h2 := claim_C1.2
    { sessions := [(7, initialSessionState)], switchboard := Switchboard.empty, max_room_size := 2 }
    7 { notifications := false, data := false, media := Option.some "bob" } "bob"
    rfl rfl rfl _ rfl rfl
  constructor
  · rw [h1.1]
    exact h1.2.1
  · rw [h2.1]
    exact h2.2.1

theorem process_join_effects (w : World) (sid : SessionId) (r0 : RoomId) (u : UserId)
    (sub : Option Subscription) :
    ((process_join w sid r0 u sub).2.max_room_size = w.max_room_size) ∧
    (((process_join w sid r0 u sub).2.switchboard.occupants = w.switchboard.occupants) ∨
     ((w.switchboard.occupants_of r0).length < w.max_room_size ∧
      (process_join w sid r0 u sub).2.switchboard.occupants = (r0, sid) :: w.switchboard.occupants)) := by
  unfold process_join
  dsimp only
  split
  next h1 => exact ⟨rfl, Or.inl rfl⟩
  next h1 =>
  split
  next h2 => exact ⟨rfl, Or.inl rfl⟩
  next h2 =>
  split
  next h3 => exact ⟨rfl, Or.inl rfl⟩
  next h3 =>
  split
  next => exact ⟨rfl, Or.inl rfl⟩
  next subscription =>
    dsimp only at h3 ⊢
    have hlt : subscription.data = true →
        (w.switchboard.occupants_of r0).length < w.max_room_size := by
      intro hd
      rw [hd] at h3
      simp at h3
      exact h3
    cases hd : subscription.data with
    | false =>
      simp only [hd, Bool.false_eq_true, if_false]
      cases hsm : subscription.media with
      | none => exact ⟨rfl, Or.inl rfl⟩
      | some pid =>
        dsimp only
        split
        · exact ⟨rfl, Or.inl rfl⟩
        · exact ⟨rfl, Or.inl rfl⟩
    | true =>
      simp only [hd, if_true]
      cases hsm : subscription.media with
      | none =>
        refine ⟨rfl, Or.inr ⟨hlt hd, ?_⟩⟩
        simp [World.updateSession, Switchboard.join_room]
      | some pid =>
        dsimp only
        split
        · refine ⟨rfl, Or.inr ⟨hlt hd, ?_⟩⟩
          simp [World.updateSession, Switchboard.join_room]
        · refine ⟨rfl, Or.inr ⟨hlt hd, ?_⟩⟩
          simp [World.updateSession, Switchboard.join_room, Switchboard.subscribe_to_user]

theorem process_subscribe_effects (w : World) (sid : SessionId) (what : Subscription) :
    ((process_subscribe w sid what).2.max_room_size = w.max_room_size) ∧
    ((process_subscribe w sid what).2.switchboard.occupants = w.switchboard.occupants) := by
  unfold process_subscribe
  dsimp only
  split
  · exact ⟨rfl, rfl⟩
  · split
    · exact ⟨rfl, rfl⟩
    · split
      · exact ⟨rfl, rfl⟩
      · exact ⟨rfl, rfl⟩

theorem process_block_effects (w : World) (sid : SessionId) (whom : UserId) :
    ((process_block w sid whom).2.max_room_size = w.max_room_size) ∧
    ((process_block w sid whom).2.switchboard.occupants = w.switchboard.occupants) := by
  unfold process_block
  split
  · exact ⟨rfl, rfl⟩
  · exact ⟨rfl, rfl⟩

theorem process_unblock_effects (w : World) (sid : SessionId) (whom : UserId) :
    ((process_unblock w sid whom).2.max_room_size = w.max_room_size) ∧
    ((process_unblock w sid whom).2.switchboard.occupants = w.switchboard.occupants) := by
  unfold process_unblock
  split
  · dsimp only
    split
    · exact ⟨rfl, rfl⟩
    · exact ⟨rfl, rfl⟩
  · exact ⟨rfl, rfl⟩

theorem applyOp_max_room_size (w : World) (op : Op) :
    (applyOp w op).max_room_size = w.max_room_size := by
  cases op with
  | connect sid => rfl
  | join sid r u sub => exact (process_join_effects w sid r u sub).1
  | subscribeOp sid what => exact (process_subscribe_effects w sid what).1
  | block sid whom => exact (process_block_effects w sid whom).1
  | unblock sid whom => exact (process_unblock_effects w sid whom).1
  | offer sid so ans => rfl
  | destroy sid => rfl

/-- The room capacity invariant of the specification: no room ever holds more
than `max_room_size` occupants. -/
def roomCapInv (w : World) : Prop :=
  ∀ r : RoomId, (w.switchboard.occupants_of r).length ≤ w.max_room_size

theorem occupants_of_congr (sb sb2 : Switchboard) (h : sb.occupants = sb2.occupants)
    (r : RoomId) : sb.occupants_of r = sb2.occupants_of r := by
  unfold Switchboard.occupants_of
  rw [h]

theorem applyOp_roomCap (w : World) (op : Op) (h : roomCapInv w) : roomCapInv (applyOp w op) := by
  cases op with
  | connect sid => exact h
  | offer sid so ans => exact h
  | join sid r0 u sub =>
    intro r
    obtain ⟨hmax, hocc⟩ := process_join_effects w sid r0 u sub
    show ((process_join w sid r0 u sub).2.switchboard.occupants_of r).length ≤
      (process_join w sid r0 u sub).2.max_room_size
    rw [hmax]
    rcases hocc with hsame | ⟨hlt, hcons⟩
    · rw [occupants_of_congr _ w.switchboard hsame r]
      exact h r
    · unfold Switchboard.occupants_of
      rw [hcons, List.filter_cons]
      cases hb : ((r0, sid).1 == r) with
      | false => simpa [hb, Switchboard.occupants_of] using h r
      | true =>
        have hr : r0 = r := by simpa using hb
        subst hr
        simp only [if_true]
        have hlen : ((w.switchboard.occupants.filter (fun p => p.1 == r0)).map (fun p => p.2)).length <
            w.max_room_size := hlt
        simp only [List.map_cons, List.length_cons, List.length_map] at *
        omega
  | subscribeOp sid what =>
    intro r
    obtain ⟨hmax, hocc⟩ := process_subscribe_effects w sid what
    show ((process_subscribe w sid what).2.switchboard.occupants_of r).length ≤
      (process_subscribe w sid what).2.max_room_size
    rw [hmax, occupants_of_congr _ w.switchboard hocc r]
    exact h r
  | block sid whom =>
    intro r
    obtain ⟨hmax, hocc⟩ := process_block_effects w sid whom
    show ((process_block w sid whom).2.switchboard.occupants_of r).length ≤
      (process_block w sid whom).2.max_room_size
    rw [hmax, occupants_of_congr _ w.switchboard hocc r]
    exact h r
  | unblock sid whom =>
    intro r
    obtain ⟨hmax, hocc⟩ := process_unblock_effects w sid whom
    show ((process_unblock w sid whom).2.switchboard.occupants_of r).length ≤
      (process_unblock w sid whom).2.max_room_size
    rw [hmax, occupants_of_congr _ w.switchboard hocc r]
    exact h r
  | destroy sid =>
    intro r
    show (((w.switchboard.remove_session sid).occupants.filter (fun p => p.1 == r)).map
        (fun p => p.2)).length ≤ w.max_room_size
    have hsub : List.Sublist
        ((w.switchboard.remove_session sid).occupants.filter (fun p => p.1 == r))
        (w.switchboard.occupants.filter (fun p => p.1 == r)) := by
      unfold Switchboard.remove_session
      exact List.Sublist.filter _ (List.filter_sublist _)
    have := hsub.length_le
    have hr := h r
    unfold Switchboard.occupants_of at hr
    simp only [List.length_map] at *
    omega

/-- C5: a master join (subscription with `data = true`) into a room already
holding `max_room_size` occupants fails with the room-full error and leaves
the occupant count unchanged; and along every operation sequence from plugin
start, no room ever holds more than `max_room_size` occupants. -/
theorem claim_C5 :
    (∀ (w : World) (sid : SessionId) (r : RoomId) (u : UserId) (s : Subscription),
      (w.getSession sid).join_state = Option.none →
      (w.getSession sid).subscription = Option.none →
      s.data = true →
      (w.switchboard.occupants_of r).length = w.max_room_size →
      process_join w sid r u (Option.some s) = (Except.error "Room is full.", w) ∧
      ((process_join w sid r u (Option.some s)).2.switchboard.occupants_of r).length =
        w.max_room_size) ∧
    (∀ (n : Nat) (ops : List Op) (r : RoomId),
      ((runOps n ops).switchboard.occupants_of r).length ≤ n) := by
  constructor
  · intro w sid r u s hj hsubn hd hlen
    have heq : process_join w sid r u (Option.some s) = (Except.error "Room is full.", w) := by
      simp [process_join, hj, hsubn, hd, hlen]
    refine ⟨heq, ?_⟩
    rw [heq]
    exact hlen
  · intro n ops r
    have hgen : ∀ (l : List Op) (w : World), roomCapInv w →
        roomCapInv (l.foldl applyOp w) ∧ (l.foldl applyOp w).max_room_size = w.max_room_size := by
      intro l
      induction l with
      | nil => intro w hw; exact ⟨hw, rfl⟩
      | cons op rest ih =>
        intro w hw
        have h1 := applyOp_roomCap w op hw
        obtain ⟨ha, hb⟩ := ih (applyOp w op) h1
        exact ⟨ha, hb.trans (applyOp_max_room_size w op)⟩
    have hinit : roomCapInv (initWorld n) := by
      intro rr
      simp [initWorld, Switchboard.empty, Switchboard.occupants_of]
    obtain ⟨ha, hb⟩ := hgen ops (initWorld n) hinit
    have := ha r
    rw [hb] at this
    exact this

/-- C5 witness: with capacity 1 and one occupant already in the room, a
further concrete master join is rejected with the room-full error; and the
invariant evaluated on a concrete operation sequence. -/
theorem claim_C5_witness :
    process_join
        { sessions := [(3, initialSessionState)],
          switchboard := { sessions := [9], occupants := [("r", 9)],
                           publisher_to_subscribers := [], blocks := [] },
          max_room_size := 1 }
        3 "r" "carol" (Option.some { notifications := true, data := true, media := Option.none }) =
      (Except.error "Room is full.",
       { sessions := [(3, initialSessionState)],
         switchboard := { sessions := [9], occupants := [("r", 9)],
                          publisher_to_subscribers := [], blocks := [] },
         max_room_size := 1 }) ∧
    ((runOps 1 [Op.connect 0, Op.join 0 "r" "ann"
        (Option.some { notifications := true, data := true, media := Option.none })]).switchboard.occupants_of
      "r").length ≤ 1 :=
  ⟨(claim_C5.1
      { sessions := [(3, initialSessionState)],
        switchboard := { sessions := [9], occupants := [("r", 9)],
                         publisher_to_subscribers := [], blocks := [] },
        max_room_size := 1 }
      3 "r" "carol" { notifications := true, data := true, media := Option.none }
      rfl rfl rfl rfl).1,
   claim_C5.2 1 [Op.connect 0, Op.join 0 "r" "ann"
      (Option.some { notifications := true, data := true, media := Option.none })] "r"⟩

/-- C6: for a message whose originating session is live and not destroyed,
`handle_message_async` pushes exactly one response under the transaction id;
when the message stage errors (or the message stage succeeds and the JSEP
stage errors) that response is `{success: false, error: {msg}}` with no JSEP
payload; when the session is gone or destroyed, no response is pushed. -/
theorem claim_C6 :
    (∀ (m : Option (Except String MessageResponse)) (j : Option (Except String Json)),
      (handle_message_async (UpgradeResult.live false) m j).isSome = true) ∧
    (∀ (e : String) (j : Option (Except String Json)),
      handle_message_async (UpgradeResult.live false) (some (Except.error e)) j =
        some { body := errorBody e, jsep := none }) ∧
    (∀ (m : Option (Except String MessageResponse)) (e : String),
      (∀ e2 : String, m ≠ some (Except.error e2)) →
      handle_message_async (UpgradeResult.live false) m (some (Except.error e)) =
        some { body := errorBody e, jsep := none }) ∧
    (∀ (m : Option (Except String MessageResponse)) (j : Option (Except String Json)),
      handle_message_async UpgradeResult.gone m j = none ∧
      handle_message_async (UpgradeResult.live true) m j = none) := by
  refine ⟨?_, ?_, ?_, ?_⟩
  · intro m j
    cases m with
    | none => cases j with
      | none => rfl
      | some jr => cases jr <;> rfl
    | some mr => cases mr with
      | error e => rfl
      | ok v => cases j with
        | none => rfl
        | some jr => cases jr <;> rfl
  · intro e j
    cases j with
    | none => rfl
    | some jr => cases jr <;> rfl
  · intro m e hm
    cases m with
    | none => rfl
    | some mr => cases mr with
      | error e2 => exact absurd rfl (hm e2)
      | ok v => rfl
  · intro m j
    exact ⟨rfl, rfl⟩

/-- C6 witness: a concrete successful message stage combined with a failing
JSEP stage yields the error envelope with no JSEP. -/
theorem claim_C6_witness :
    handle_message_async (UpgradeResult.live false)
        (some (Except.ok (MessageResponse.msg (Json.obj []))))
        (some (Except.error "bad sdp")) =
      some { body := errorBody "bad sdp", jsep := none } :=
  claim_C6.2.2.1 (some (Except.ok (MessageResponse.msg (Json.obj [])))) "bad sdp"
    (fun e2 h => by cases h)

/-- C7: processing a publisher offer always ends with the session's cached
`subscriber_offer` set to the newly constructed offer (in particular it is
set after the first processed offer), and the event trace is exactly one
JSEP re-offer carrying the new subscriber offer to each subscriber existing
at the start of processing, all preceding the store of the new offer into
the session. -/
theorem claim_C7 (w : World) (sid : SessionId) (so ans : String)
    (hs : (w.sessions.lookup sid).isSome = true) :
    (((process_offer w sid so ans).2.getSession sid).subscriber_offer = Option.some so) ∧
    ((process_offer w sid so ans).1.1 =
      (w.switchboard.subscribers_to sid).map (fun s => OfferEvent.pushOffer s
        (Json.obj [("type", Json.str "offer"), ("sdp", Json.str so)])) ++
      [OfferEvent.storeOffer sid so]) := by
  constructor
  · show ((w.updateSession sid (fun st =>
        { st with subscriber_offer := some so })).getSession sid).subscriber_offer = _
    rw [World.getSession_updateSession _ _ _ hs]
  · rfl

/-- C7 witness: a publisher with two existing subscribers re-offers to both
and then stores the new offer. -/
theorem claim_C7_witness :
    (((process_offer
        { sessions := [(1, initialSessionState)],
          switchboard := { sessions := [1, 2, 3], occupants := [],
                           publisher_to_subscribers := [(1, 2), (1, 3)], blocks := [] },
          max_room_size := 4 }
        1 "sdp-v2" "ans").2.getSession 1).subscriber_offer = Option.some "sdp-v2") ∧
    ((process_offer
        { sessions := [(1, initialSessionState)],
          switchboard := { sessions := [1, 2, 3], occupants := [],
                           publisher_to_subscribers := [(1, 2), (1, 3)], blocks := [] },
          max_room_size := 4 }
        1 "sdp-v2" "ans").1.1 =
      [OfferEvent.pushOffer 2 (Json.obj [("type", Json.str "offer"), ("sdp", Json.str "sdp-v2")]),
       OfferEvent.pushOffer 3 (Json.obj [("type", Json.str "offer"), ("sdp", Json.str "sdp-v2")]),
       OfferEvent.storeOffer 1 "sdp-v2"]) := by
  have h := claim_C7
    { sessions := [(1, initialSessionState)],
      switchboard := { sessions := [1, 2, 3], occupants := [],
                       publisher_to_subscribers := [(1, 2), (1, 3)], blocks := [] },
      max_room_size := 4 }
    1 "sdp-v2" "ans" rfl
  exact ⟨h.1, h.2.trans rfl⟩

/-! ## Lemmas for FIR sequence numbers -/

theorem seqAsI32_mod64_add (a j : Nat) :
    seqAsI32 (a % 2 ^ 64 + j) = seqAsI32 (a + j) := by
  have h : (a % 2 ^ 64 + j) % 2 ^ 32 = (a + j) % 2 ^ 32 := by
    conv_lhs => rw [Nat.add_mod]
    conv_rhs => rw [Nat.add_mod]
    rw [Nat.mod_mod_of_dvd a (by norm_num : (2 ^ 32 : Nat) ∣ 2 ^ 64)]
  unfold seqAsI32
  rw [h]

theorem getSeq_setSeq_self (c : FirCounters) (sid : SessionId) (v : Nat) :
    getSeq (setSeq c sid v) sid = v := by
  induction c with
  | nil => simp [setSeq, getSeq, List.lookup]
  | cons h t ih =>
    rcases h with ⟨k, x⟩
    by_cases hk : k = sid
    · subst hk
      simp [setSeq, getSeq, List.lookup]
    · have hb : (k == sid) = false := beq_eq_false_iff_ne.mpr hk
      have hb2 : (sid == k) = false := beq_eq_false_iff_ne.mpr (Ne.symm hk)
      simp [setSeq, getSeq, List.lookup, hb, hb2] at ih ⊢
      exact ih

theorem getSeq_setSeq_ne (c : FirCounters) (sid sid2 : SessionId) (v : Nat)
    (h : sid ≠ sid2) :
    getSeq (setSeq c sid v) sid2 = getSeq c sid2 := by
  induction c with
  | nil =>
    have hb : (sid2 == sid) = false := beq_eq_false_iff_ne.mpr (Ne.symm h)
    simp [setSeq, getSeq, List.lookup, hb]
  | cons hd t ih =>
    rcases hd with ⟨k, x⟩
    by_cases hk : k = sid
    · subst hk
      have hb : (sid2 == k) = false := beq_eq_false_iff_ne.mpr (Ne.symm h)
      simp [setSeq, getSeq, List.lookup, hb]
    · have hb : (k == sid) = false := beq_eq_false_iff_ne.mpr hk
      simp [setSeq, getSeq, List.lookup, hb] at ih ⊢
      cases hb2 : (sid2 == k) with
      | true => simp
      | false => simpa [hb2] using ih

theorem send_fir_publishers (pubs : List SessionId) (c : FirCounters) :
    (send_fir pubs c).1.map Prod.fst = pubs := by
  induction pubs generalizing c with
  | nil => rfl
  | cons q rest ih => simp [send_fir, ih]

theorem range_map_shift {α : Type} (f : Nat → α) (m n : Nat) :
    (List.range (m + n)).map f =
      (List.range m).map f ++ (List.range n).map (fun j => f (m + j)) := by
  rw [List.range_add, List.map_append, List.map_map]
  simp [Function.comp]

theorem send_fir_wrap_spec (pubs : List SessionId) (c : FirCounters) (p : SessionId)
    (hc : getSeq c p < 2 ^ 64) :
    (((send_fir pubs c).1.filter (fun f => f.1 == p)).map Prod.snd =
      (List.range (pubs.count p)).map (fun j => seqAsI32 (getSeq c p + j))) ∧
    (getSeq (send_fir pubs c).2 p = (getSeq c p + pubs.count p) % 2 ^ 64) := by
  induction pubs generalizing c with
  | nil =>
    refine ⟨by simp [send_fir], ?_⟩
    simp only [send_fir, List.count_nil, Nat.add_zero]
    omega
  | cons q rest ih =>
    by_cases hq : q = p
    · subst hq
      have hself : getSeq (setSeq c q ((getSeq c q + 1) % 2 ^ 64)) q =
          (getSeq c q + 1) % 2 ^ 64 := getSeq_setSeq_self _ _ _
      have hc2 : getSeq (setSeq c q ((getSeq c q + 1) % 2 ^ 64)) q < 2 ^ 64 := by
        rw [hself]
        exact Nat.mod_lt _ (by norm_num)
      obtain ⟨ih1, ih2⟩ := ih (setSeq c q ((getSeq c q + 1) % 2 ^ 64)) hc2
      have hcount : (q :: rest).count q = rest.count q + 1 := by
        simp [List.count_cons]
      constructor
      · simp only [send_fir, List.filter_cons, beq_self_eq_true, if_true, List.map_cons,
          hcount]
        rw [ih1, hself, List.range_succ_eq_map, List.map_cons, List.map_map]
        refine congrArg₂ _ (by simp) ?_
        apply List.map_congr_left
        intro j _
        simp only [Function.comp]
        rw [seqAsI32_mod64_add]
        congr 1
        omega
      · simp only [send_fir, hcount]
        rw [ih2, hself]
        omega
    · have hbq : (q == p) = false := beq_eq_false_iff_ne.mpr hq
      have hcount : (q :: rest).count p = rest.count p := by
        simp [List.count_cons, Ne.symm hq]
      have hne : getSeq (setSeq c q ((getSeq c q + 1) % 2 ^ 64)) p = getSeq c p :=
        getSeq_setSeq_ne _ _ _ _ hq
      have hc2 : getSeq (setSeq c q ((getSeq c q + 1) % 2 ^ 64)) p < 2 ^ 64 := by
        rw [hne]
        exact hc
      obtain ⟨ih1, ih2⟩ := ih (setSeq c q ((getSeq c q + 1) % 2 ^ 64)) hc2
      constructor
      · simp only [send_fir, List.filter_cons, hbq, Bool.false_eq_true, if_false, hcount]
        rw [ih1, hne]
      · simp only [send_fir, hcount]
        rw [ih2, hne]

theorem runFirCalls_wrap_spec (calls : List (List SessionId)) (c : FirCounters)
    (p : SessionId) (hc : getSeq c p < 2 ^ 64) :
    (((runFirCalls calls c).1.filter (fun f => f.1 == p)).map Prod.snd =
      (List.range ((calls.map (fun pubs => pubs.count p)).sum)).map
        (fun j => seqAsI32 (getSeq c p + j))) ∧
    (getSeq (runFirCalls calls c).2 p =
      (getSeq c p + (calls.map (fun pubs => pubs.count p)).sum) % 2 ^ 64) := by
  induction calls generalizing c with
  | nil =>
    refine ⟨by simp [runFirCalls], ?_⟩
    simp only [runFirCalls, List.map_nil, List.sum_nil, Nat.add_zero]
    omega
  | cons pubs rest ih =>
    obtain ⟨h1, h2⟩ := send_fir_wrap_spec pubs c p hc
    have hc2 : getSeq (send_fir pubs c).2 p < 2 ^ 64 := by
      rw [h2]
      exact Nat.mod_lt _ (by norm_num)
    obtain ⟨ih1, ih2⟩ := ih (send_fir pubs c).2 hc2
    constructor
    · simp only [runFirCalls, List.filter_append, List.map_append, List.map_cons,
        List.sum_cons]
      rw [h1, ih1]
      simp only [h2]
      rw [range_map_shift _ (pubs.count p) ((rest.map (fun pubs => pubs.count p)).sum)]
      refine congrArg₂ _ rfl ?_
      apply List.map_congr_left
      intro j _
      rw [seqAsI32_mod64_add]
      congr 1
      omega
    · simp only [runFirCalls, List.map_cons, List.sum_cons]
      rw [ih2]
      simp only [h2]
      omega

/-- C8 counterexample: on the trace that emits `2 ^ 31 + 1` FIRs to publisher
1 from plugin start, the emitted sequence values are NOT strictly increasing:
the `fetch_add` counter reaches `2 ^ 31` and its `as i32` truncation wraps to
`-2 ^ 31`, below the previous value `2 ^ 31 - 1`. This refutes the claim that
`fir_seq` strictly increases across successive FIR emissions to the same
publisher. -/
theorem claim_C8_counterexample :
    ¬ (((runFirCalls (List.replicate (2 ^ 31 + 1) [1]) []).1.filter
        (fun f => f.1 == 1)).map Prod.snd).Pairwise (· < ·) := by
  intro hpw
  obtain ⟨h1, _⟩ := runFirCalls_wrap_spec (List.replicate (2 ^ 31 + 1) [1]) [] 1
    (by norm_num [getSeq, List.lookup])
  have hsum : (((List.replicate (2 ^ 31 + 1) [1]).map
      (fun pubs => pubs.count 1)).sum) = 2 ^ 31 + 1 := by
    simp only [List.map_replicate, List.count_cons, List.count_nil, beq_self_eq_true,
      if_true, Nat.zero_add, List.sum_replicate, smul_eq_mul, Nat.mul_one]
  rw [h1, hsum] at hpw
  simp only [show getSeq ([] : FirCounters) 1 = 0 from rfl, Nat.zero_add] at hpw
  have hlt := List.pairwise_iff_getElem.mp hpw (2 ^ 31 - 1) (2 ^ 31)
    (by rw [List.length_map, List.length_range]; omega)
    (by rw [List.length_map, List.length_range]; omega)
    (by omega)
  simp only [List.getElem_map, List.getElem_range] at hlt
  have e1 : seqAsI32 (2 ^ 31 - 1) = ((2 ^ 31 - 1 : Nat) : Int) := by
    unfold seqAsI32
    norm_num
  have e2 : seqAsI32 (2 ^ 31) = ((2 ^ 31 : Nat) : Int) - 2 ^ 32 := by
    unfold seqAsI32
    norm_num
  rw [e1, e2] at hlt
  norm_num at hlt

/-- C8 (amended): when media becomes ready on a session, `setup_media` emits
exactly one FIR to each publisher the session is subscribed to (and none to
anyone else); each emission advances the publisher's `fir_seq` by one modulo
`2 ^ 64` (the `AtomicIsize` wraps); and the emitted i32-truncated sequence
numbers to one publisher strictly increase as long as that publisher has
received at most `2 ^ 31` emissions in total — at the next emission the i32
value wraps to negative, so unbounded strict increase fails. -/
theorem claim_C8 :
    (∀ (sb : Switchboard) (s : SessionId) (c : FirCounters) (p : SessionId),
      (sb.media_senders_to s).Nodup →
      (p ∈ sb.media_senders_to s →
        ((setup_media sb s c).1.map Prod.fst).count p = 1) ∧
      (p ∉ sb.media_senders_to s →
        ((setup_media sb s c).1.map Prod.fst).count p = 0)) ∧
    (∀ (pubs : List SessionId) (c : FirCounters) (p : SessionId),
      getSeq c p < 2 ^ 64 →
      getSeq (send_fir pubs c).2 p = (getSeq c p + pubs.count p) % 2 ^ 64) ∧
    (∀ (calls : List (List SessionId)) (p : SessionId),
      (calls.map (fun pubs => pubs.count p)).sum ≤ 2 ^ 31 →
      (((runFirCalls calls []).1.filter (fun f => f.1 == p)).map Prod.snd).Pairwise
        (· < ·)) := by
  refine ⟨?_, ?_, ?_⟩
  · intro sb s c p hnd
    have hmap : (setup_media sb s c).1.map Prod.fst = sb.media_senders_to s :=
      send_fir_publishers (sb.media_senders_to s) c
    rw [hmap]
    exact ⟨fun hm => List.count_eq_one_of_mem hnd hm,
           fun hm => List.count_eq_zero_of_not_mem hm⟩
  · intro pubs c p hc
    exact (send_fir_wrap_spec pubs c p hc).2
  · intro calls p hbound
    obtain ⟨h1, _⟩ := runFirCalls_wrap_spec calls [] p (by norm_num [getSeq, List.lookup])
    rw [h1]
    simp only [show getSeq ([] : FirCounters) p = 0 from rfl, Nat.zero_add]
    rw [List.pairwise_iff_getElem]
    intro i j hi hj hij
    simp only [List.getElem_map, List.getElem_range]
    have hjn : j < 2 ^ 31 := by
      simp only [List.length_map, List.length_range] at hj
      omega
    have hin : i < 2 ^ 31 := lt_trans hij hjn
    have ei : seqAsI32 i = (i : Int) := by
      unfold seqAsI32
      rw [Nat.mod_eq_of_lt (by omega : i < 2 ^ 32)]
      rw [if_pos hin]
    have ej : seqAsI32 j = (j : Int) := by
      unfold seqAsI32
      rw [Nat.mod_eq_of_lt (by omega : j < 2 ^ 32)]
      rw [if_pos hjn]
    rw [ei, ej]
    exact_mod_cast hij

/-- C8 witness: a session subscribed to publishers 1 and 2 triggers exactly
one FIR to publisher 1 and none to the unrelated session 3; one emission to
publisher 1 advances its counter to `1 % 2 ^ 64`; and a two-emission trace to
publisher 1 is strictly increasing. -/
theorem claim_C8_witness :
    (((setup_media
        { sessions := [1, 2, 5], occupants := [],
          publisher_to_subscribers := [(1, 5), (2, 5)], blocks := [] } 5 []).1.map
      Prod.fst).count 1 = 1) ∧
    (((setup_media
        { sessions := [1, 2, 5], occupants := [],
          publisher_to_subscribers := [(1, 5), (2, 5)], blocks := [] } 5 []).1.map
      Prod.fst).count 3 = 0) ∧
    (getSeq (send_fir [1] []).2 1 =
      (getSeq ([] : FirCounters) 1 + List.count 1 [1]) % 2 ^ 64) ∧
    ((((runFirCalls [[1], [1]] []).1.filter (fun f => f.1 == 1)).map Prod.snd).Pairwise
      (· < ·)) :=
  ⟨(claim_C8.1
      { sessions := [1, 2, 5], occupants := [],
        publisher_to_subscribers := [(1, 5), (2, 5)], blocks := [] } 5 [] 1
      (by decide)).1 (by decide),
   (claim_C8.1
      { sessions := [1, 2, 5], occupants := [],
        publisher_to_subscribers := [(1, 5), (2, 5)], blocks := [] } 5 [] 3
      (by decide)).2 (by decide),
   claim_C8.2.1 [1] [] 1 (by decide),
   claim_C8.2.2 [[1], [1]] 1 (by decide)⟩

/-- C9: the notification fan-outs deliver only to candidate sessions that
have both `join_state` and `subscription` set with `notifications` enabled;
sessions missing either field are filtered out, and `notify_except` excludes
by user id (every session of the acting user is skipped, not just the acting
session), while `notify_user` targets all sessions of the target user. -/
theorem claim_C9 :
    (∀ (everyone : List SessionState) (myself : UserId) (s : SessionState),
      s ∈ notify_except everyone myself ↔
        s ∈ everyone ∧ ∃ sub j, s.subscription = some sub ∧ s.join_state = some j ∧
          sub.notifications = true ∧ j.user_id ≠ myself) ∧
    (∀ (everyone : List SessionState) (target : UserId) (s : SessionState),
      s ∈ notify_user everyone target ↔
        s ∈ everyone ∧ ∃ sub j, s.subscription = some sub ∧ s.join_state = some j ∧
          sub.notifications = true ∧ j.user_id = target) := by
  constructor
  · intro everyone myself s
    simp only [notify_except, List.mem_filter]
    refine and_congr_right (fun _ => ?_)
    cases hsub : s.subscription with
    | none => simp [hsub]
    | some sub =>
      cases hj : s.join_state with
      | none => simp [hsub, hj]
      | some j => simp [hsub, hj, Bool.and_eq_true]
  · intro everyone target s
    simp only [notify_user, List.mem_filter]
    refine and_congr_right (fun _ => ?_)
    cases hsub : s.subscription with
    | none => simp [hsub]
    | some sub =>
      cases hj : s.join_state with
      | none => simp [hsub, hj]
      | some j => simp [hsub, hj, Bool.and_eq_true]

theorem for_each_count (l : List Subscriptions.Subscription) (k : Subscriptions.ContentKind)
    (sid : SessionId) :
    ((l.filter (fun s => Subscriptions.containsKind s.kind k)).filterMap
        (fun s => s.sess)).count sid =
      l.countP (fun s => Subscriptions.containsKind s.kind k && s.sess == some sid) := by
  induction l with
  | nil => rfl
  | cons a t ih =>
    by_cases hc : Subscriptions.containsKind a.kind k
    · cases hs : a.sess with
      | none =>
        simp [List.filter_cons, hc, List.filterMap_cons, hs, List.countP_cons, ih]
      | some x =>
        simp [List.filter_cons, hc, List.filterMap_cons, hs, List.countP_cons, ih,
          List.count_cons]
    · simp [List.filter_cons, hc, List.countP_cons, ih]

theorem filterMap_filter_sess (l : List Subscriptions.Subscription)
    (k : Subscriptions.ContentKind) :
    (l.filter (fun s => Subscriptions.containsKind s.kind k)).filterMap (fun s => s.sess) =
      l.filterMap (fun s => if Subscriptions.containsKind s.kind k then s.sess else none) := by
  induction l with
  | nil => rfl
  | cons a t ih =>
    by_cases hc : Subscriptions.containsKind a.kind k
    · simp [List.filter_cons, hc, List.filterMap_cons, ih]
    · simp [List.filter_cons, hc, List.filterMap_cons, ih]

/-- C10: `for_each_subscriber` invokes `send` exactly once per subscription
stored under the publisher whose kind contains the requested kind and whose
weak session reference still upgrades, in storage order; dead subscriptions
and subscriptions of other kinds are skipped silently, and a publisher with
no map entry yields zero invocations. -/
theorem claim_C10 :
    (∀ (m : Subscriptions.SubscriptionMap) (p : UserId) (k : Subscriptions.ContentKind),
      m.lookup p = none → Subscriptions.for_each_subscriber m p k = []) ∧
    (∀ (m : Subscriptions.SubscriptionMap) (p : UserId) (k : Subscriptions.ContentKind),
      Subscriptions.for_each_subscriber m p k =
        ((m.lookup p).getD []).filterMap
          (fun s => if Subscriptions.containsKind s.kind k then s.sess else none)) ∧
    (∀ (m : Subscriptions.SubscriptionMap) (p : UserId) (k : Subscriptions.ContentKind)
        (sid : SessionId),
      (Subscriptions.for_each_subscriber m p k).count sid =
        ((m.lookup p).getD []).countP
          (fun s => Subscriptions.containsKind s.kind k && s.sess == some sid)) := by
  refine ⟨?_, ?_, ?_⟩
  · intro m p k h
    simp [Subscriptions.for_each_subscriber, Subscriptions.subscribers_to, h]
  · intro m p k
    exact filterMap_filter_sess ((m.lookup p).getD []) k
  · intro m p k sid
    exact for_each_count ((m.lookup p).getD []) k sid

/-- C10 witness: a map holding one live audio subscription, one dead one and
one data-only one under publisher `u` yields exactly one invocation for the
audio kind, and an absent publisher yields none. -/
theorem claim_C10_witness :
    (Subscriptions.for_each_subscriber
        [("u", [{ sess := some 4, kind := Subscriptions.AUDIO },
                { sess := none, kind := Subscriptions.AUDIO },
                { sess := some 6, kind := Subscriptions.DATA }])]
        "nobody" Subscriptions.AUDIO = []) ∧
    ((Subscriptions.for_each_subscriber
        [("u", [{ sess := some 4, kind := Subscriptions.AUDIO },
                { sess := none, kind := Subscriptions.AUDIO },
                { sess := some 6, kind := Subscriptions.DATA }])]
        "u" Subscriptions.AUDIO).count 4 = 1) := by
  constructor
  · exact claim_C10.1 _ "nobody" Subscriptions.AUDIO rfl
  · rw [claim_C10.2.2 _ "u" Subscriptions.AUDIO 4]
    decide
